import Mathlib

/-!
Shallow embedding of `litestar/logging/config.py`: the logging configuration
resolver (standard/picologging dict-based configs, the structlog config, the
default exception-logging handler factory, processor pipeline builders, the
event filter, and the pre-configuration logger placeholder).

Python dicts with string keys are modelled as association lists in insertion
order; `None`-able fields are `Option`; raised exceptions are the `.error`
side of `Except`.  Environment facts that the module queries at run time
(whether `picologging`/`structlog` import, the Python version, whether stderr
is a tty) are gathered in an `Env` record and passed explicitly.
-/

deriving instance DecidableEq for Except

namespace LitestarLogging

/-- Exceptions that the modelled code can raise. -/
inductive LogError
  | improperlyConfigured (msg : String)
  | missingDependency (dep : String)
  | indexError
deriving DecidableEq, Repr

/-- Runtime environment facts consulted by the module. -/
structure Env where
  pico_installed : Bool
  structlog_installed : Bool
  py312 : Bool
  stderr_isatty : Bool
deriving DecidableEq, Repr

/-- The connection scope passed to exception logging handlers; litestar scopes
always carry a `type` and a `path` entry. -/
structure Scope where
  type : String
  path : String
deriving DecidableEq, Repr

/-- Python slice `l[s:]` for an arbitrary integer `s`: a negative start counts
from the end and clamps at 0; a nonnegative start clamps at the length. -/
def pyTailSlice (s : Int) (l : List α) : List α :=
  if s < 0 then l.drop ((l.length + s).toNat) else l.drop s.toNat

/-- What `logger.exception(...)` receives: either a structlog event with
keyword fields, or a stdlib-style formatted message with interpolated args. -/
inductive LogRecord
  | structEvent (event : String) (connection_type : String) (path : String) (traceback : String)
  | message (fmt : String) (args : List String)
deriving DecidableEq, Repr

/-- The tail of the traceback actually emitted by the built handler: the first
line is removed by `tb.pop(0)` (an IndexError on an empty list), and the rest
is sliced as the Python `tb[-traceback_line_limit:]`. -/
def emitted_traceback_lines (traceback_line_limit : Int) (tb : List String) :
    Except LogError (List String) :=
  match tb with
  | [] => .error .indexError
  | _ :: rest => .ok (pyTailSlice (-traceback_line_limit) rest)

/-- The handler built by `_default_exception_logging_handler_factory`: pops the
first traceback line, slices the tail with `tb[-traceback_line_limit:]`, and
emits either a structlog event or a formatted stdlib message.  The emission is
modelled as the returned `LogRecord`. -/
def default_exception_logging_handler (is_struct_logger : Bool) (traceback_line_limit : Int)
    (scope : Scope) (tb : List String) : Except LogError LogRecord :=
  match tb with
  | [] => .error .indexError
  | first_line :: rest =>
    let tail := pyTailSlice (-traceback_line_limit) rest
    if is_struct_logger then
      .ok (.structEvent "Uncaught Exception" scope.type scope.path (String.join tail))
    else
      .ok (.message "exception raised on %s connection to route %s\n\n%s"
            [scope.type, scope.path, first_line ++ String.join tail])

/-- The JSON serializers injected into the JSON renderers. -/
inductive Serializer
  | default_json
  | stdlib_json
deriving DecidableEq, Repr

/-- A structlog processor, identified by which step of the module it is and by
the arguments the module instantiates it with. -/
inductive Processor
  | merge_contextvars
  | add_log_level
  | format_exc_info
  | timeStamper (fmt : String)
  | jsonRenderer (serializer : Serializer)
  | consoleRenderer (colors : Bool) (max_frames : Nat) (show_locals : Bool) (width : Nat)
  | stdlib_add_log_level
  | extraAdder
  | eventFilter (keys : List String)
  | remove_processors_meta
deriving DecidableEq, Repr

/-- `default_structlog_processors`: the native structlog pipeline; empty when
structlog does not import. -/
def default_structlog_processors (structlog_installed : Bool) (as_json : Bool) :
    List Processor :=
  if structlog_installed then
    if as_json then
      [ .merge_contextvars, .add_log_level, .format_exc_info, .timeStamper "iso",
        .jsonRenderer .default_json ]
    else
      [ .merge_contextvars, .add_log_level, .timeStamper "iso",
        .consoleRenderer true 1 false 80 ]
  else []

/-- `default_structlog_standard_lib_processors`: the bridge pipeline used by
the `ProcessorFormatter`; empty when structlog does not import. -/
def default_structlog_standard_lib_processors (structlog_installed : Bool) (as_json : Bool) :
    List Processor :=
  if structlog_installed then
    if as_json then
      [ .timeStamper "iso", .stdlib_add_log_level, .extraAdder,
        .eventFilter ["color_message"], .remove_processors_meta,
        .jsonRenderer .stdlib_json ]
    else
      [ .timeStamper "iso", .stdlib_add_log_level, .extraAdder,
        .eventFilter ["color_message"], .remove_processors_meta,
        .consoleRenderer true 1 false 80 ]
  else []

/-- The logger factories `default_logger_factory` can return. -/
inductive LoggerFactory
  | bytesLogger
  | writeLogger
deriving DecidableEq, Repr

/-- `default_logger_factory`: bytes-oriented when rendering JSON, text-oriented
otherwise; `none` when structlog does not import. -/
def default_logger_factory (structlog_installed : Bool) (as_json : Bool) :
    Option LoggerFactory :=
  if structlog_installed then
    some (if as_json then .bytesLogger else .writeLogger)
  else none

/-- A value inside a handler / formatter / logger / root settings dict.  The
module only ever stores strings, booleans, lists of strings, the
`ProcessorFormatter` class object and processor lists there. -/
inductive PyVal
  | s (v : String)
  | b (v : Bool)
  | l (v : List String)
  | procFormatterClass
  | procs (v : List Processor)
deriving DecidableEq, Repr

/-- Python `d.get(k)` on a string-keyed dict modelled as an association list:
the value at the first matching key. -/
def lookupS (k : String) : List (String × α) → Option α
  | [] => none
  | (k1, v) :: rest => if k = k1 then some v else lookupS k rest

/-- One settings dict (e.g. one handler descriptor), in insertion order. -/
abbrev Settings := List (String × PyVal)

/-- A name-to-settings dict (`handlers`, `formatters`, `loggers`). -/
abbrev SettingsMap := List (String × Settings)

/-- The module-level `default_handlers` table; on Python >= 3.12 the
`queue_listener` entry additionally gets `"handlers": ["console"]`. -/
def default_handlers (py312 : Bool) : SettingsMap :=
  [ ("console",
      [ ("class", .s "logging.StreamHandler"), ("level", .s "DEBUG"),
        ("formatter", .s "standard") ]),
    ("queue_listener",
      [ ("class", .s "litestar.logging.standard.QueueListenerHandler"),
        ("level", .s "DEBUG"), ("formatter", .s "standard") ]
      ++ (if py312 then [("handlers", .l ["console"])] else [])) ]

/-- The module-level `default_picologging_handlers` table. -/
def default_picologging_handlers : SettingsMap :=
  [ ("console",
      [ ("class", .s "picologging.StreamHandler"), ("level", .s "DEBUG"),
        ("formatter", .s "standard") ]),
    ("queue_listener",
      [ ("class", .s "litestar.logging.picologging.QueueListenerHandler"),
        ("level", .s "DEBUG"), ("formatter", .s "standard") ]) ]

/-- `_get_default_handlers`: picologging table when picologging is installed,
else the standard table. -/
def _get_default_handlers (env : Env) : SettingsMap :=
  if env.pico_installed then default_picologging_handlers else default_handlers env.py312

/-- `get_logger_placeholder` raises `ImproperlyConfiguredException` for every
name (including `None`); the `Empty` payload models its `NoReturn` type: it can
never produce a logger. -/
def get_logger_placeholder (_name : Option String) : Except LogError Empty :=
  .error (.improperlyConfigured
    "cannot call .get_logger without passing logging_config to the Litestar constructor first")

/-- The `log_exceptions` literal: `"always" | "debug" | "never"`. -/
inductive LogExceptions
  | always
  | debug
  | never
deriving DecidableEq, Repr

/-- An exception logging handler value: either one built by
`_default_exception_logging_handler_factory` (identified by its two factory
arguments) or an opaque user-supplied callable. -/
inductive ExcHandler
  | defaultHandler (is_struct_logger : Bool) (traceback_line_limit : Int)
  | custom (id : Nat)
deriving DecidableEq, Repr

/-- The `LoggingConfig` dataclass, fields in declaration order. -/
structure LoggingConfig where
  version : Int
  incremental : Bool
  disable_existing_loggers : Bool
  filters : Option SettingsMap
  propagate : Bool
  formatters : SettingsMap
  handlers : SettingsMap
  loggers : SettingsMap
  root : Settings
  configure_root_logger : Bool
  log_exceptions : LogExceptions
  traceback_line_limit : Int
  exception_logging_handler : Option ExcHandler
deriving DecidableEq, Repr

/-- The dataclass field defaults of `LoggingConfig`; the `handlers` default
factory consults the environment through `_get_default_handlers`. -/
def LoggingConfig.defaults (env : Env) : LoggingConfig :=
  { version := 1
    incremental := false
    disable_existing_loggers := false
    filters := none
    propagate := true
    formatters :=
      [("standard",
        [("format", .s "%(levelname)s - %(asctime)s - %(name)s - %(module)s - %(message)s")])]
    handlers := _get_default_handlers env
    loggers :=
      [("litestar",
        [("level", .s "INFO"), ("handlers", .l ["queue_listener"]), ("propagate", .b false)])]
    root := [("handlers", .l ["queue_listener"]), ("level", .s "INFO")]
    configure_root_logger := true
    log_exceptions := .debug
    traceback_line_limit := 20
    exception_logging_handler := none }

/-- `LoggingConfig.__post_init__`: insert the default `queue_listener` handler
and `litestar` logger when absent, and auto-populate the exception logging
handler unless `log_exceptions == "never"` or one was supplied. -/
def LoggingConfig.post_init (env : Env) (c : LoggingConfig) : LoggingConfig :=
  let handlers :=
    if (lookupS "queue_listener" c.handlers).isSome then c.handlers
    else c.handlers ++
      [("queue_listener", ((lookupS "queue_listener" (_get_default_handlers env)).getD []))]
  let loggers :=
    if (lookupS "litestar" c.loggers).isSome then c.loggers
    else c.loggers ++
      [("litestar",
        [("level", .s "INFO"), ("handlers", .l ["queue_listener"]), ("propagate", .b false)])]
  let exception_logging_handler :=
    if c.log_exceptions ≠ LogExceptions.never ∧ c.exception_logging_handler = none then
      some (.defaultHandler false c.traceback_line_limit)
    else c.exception_logging_handler
  { c with
    handlers := handlers
    loggers := loggers
    exception_logging_handler := exception_logging_handler }

/-- Whether `pat` is a prefix of `l`, by character comparison. -/
def isPrefixList : List Char → List Char → Bool
  | [], _ => true
  | _ :: _, [] => false
  | a :: as, b :: bs => a == b && isPrefixList as bs

/-- Whether `pat` occurs contiguously anywhere in `l`. -/
def containsSeq (pat : List Char) : List Char → Bool
  | [] => isPrefixList pat []
  | c :: rest => isPrefixList pat (c :: rest) || containsSeq pat rest

/-- Python `pat in s` for strings: contiguous substring occurrence. -/
def strHasSub (pat s : String) : Bool := containsSeq pat.toList s.toList

/-- JSON text of one settings value, as `msgspec` encodes it.  The two
non-serialisable variants (`ProcessorFormatter` class objects and processor
lists) never occur inside `handlers`, the only map the module encodes; they are
given placeholder renderings. -/
def encodePyVal : PyVal → String
  | .s v => "\"" ++ v ++ "\""
  | .b v => if v then "true" else "false"
  | .l v => "[" ++ String.intercalate "," (v.map (fun x => "\"" ++ x ++ "\"")) ++ "]"
  | .procFormatterClass => "<ProcessorFormatter>"
  | .procs _ => "<processors>"

/-- JSON text of one settings dict. -/
def encodeSettings (s : Settings) : String :=
  "\x7b" ++
    String.intercalate ","
      (s.map (fun kv => "\"" ++ kv.1 ++ "\":" ++ encodePyVal kv.2)) ++
  "\x7d"

/-- `encode_json` applied to a name-to-settings dict, as JSON text.  (The code
wraps this in `str(...)`, turning the bytes into their repr; that wrapper can
neither create nor destroy an occurrence of `"picologging"`, whose characters
are plain unescaped letters, so the substring test is modelled on the JSON
text itself.) -/
def encode_json (m : SettingsMap) : String :=
  "\x7b" ++
    String.intercalate ","
      (m.map (fun kv => "\"" ++ kv.1 ++ "\":" ++ encodeSettings kv.2)) ++
  "\x7d"

/-- The branch condition of `LoggingConfig.configure`:
`"picologging" in str(encode_json(self.handlers))`. -/
def LoggingConfig.uses_picologging (c : LoggingConfig) : Bool :=
  strHasSub "picologging" (encode_json c.handlers)

/-- A value of the compiled backend-native configuration mapping. -/
inductive CValue
  | int (n : Int)
  | bool (b : Bool)
  | smap (m : SettingsMap)
  | settings (s : Settings)
  | logex (l : LogExceptions)
  | handler (h : ExcHandler)
deriving DecidableEq, Repr

/-- `dataclasses.asdict(self)` for a `LoggingConfig`: every field keyed by its
name in declaration order; the two `None`-able fields carry an `Option`. -/
def LoggingConfig.asdict (c : LoggingConfig) : List (String × Option CValue) :=
  [ ("version", some (.int c.version)),
    ("incremental", some (.bool c.incremental)),
    ("disable_existing_loggers", some (.bool c.disable_existing_loggers)),
    ("filters", c.filters.map .smap),
    ("propagate", some (.bool c.propagate)),
    ("formatters", some (.smap c.formatters)),
    ("handlers", some (.smap c.handlers)),
    ("loggers", some (.smap c.loggers)),
    ("root", some (.settings c.root)),
    ("configure_root_logger", some (.bool c.configure_root_logger)),
    ("log_exceptions", some (.logex c.log_exceptions)),
    ("traceback_line_limit", some (.int c.traceback_line_limit)),
    ("exception_logging_handler", c.exception_logging_handler.map .handler) ]

/-- The dict comprehension in `configure`: keep entries whose value is not
`None` and whose key is not excluded. -/
def stripFields (excluded : List String) (d : List (String × Option CValue)) :
    List (String × CValue) :=
  d.filterMap (fun kv =>
    match kv.2 with
    | some v => if kv.1 ∈ excluded then none else some (kv.1, v)
    | none => none)

/-- Which dict-based backend `configure` routes to. -/
inductive Backend
  | standard
  | highPerformance
deriving DecidableEq, Repr

/-- `LoggingConfig.configure`: pick picologging iff `"picologging"` occurs in
the JSON encoding of `handlers` (raising `MissingDependencyException` when it
is not importable), project the dataclass fields per backend, then drop `root`
when `configure_root_logger` is false.  The call into the backend's
`dictConfig` and the returned `getLogger` are outside the module; the result
is modelled as the chosen backend plus the mapping passed to `dictConfig`. -/
def LoggingConfig.configure (env : Env) (c : LoggingConfig) :
    Except LogError (Backend × List (String × CValue)) :=
  if c.uses_picologging then
    if env.pico_installed then
      let values := stripFields ["incremental", "configure_root_logger"] c.asdict
      let values := if c.configure_root_logger then values
        else values.filter (fun kv => kv.1 ≠ "root")
      .ok (.highPerformance, values)
    else .error (.missingDependency "picologging")
  else
    let values := stripFields ["configure_root_logger"] c.asdict
    let values := if c.configure_root_logger then values
      else values.filter (fun kv => kv.1 ≠ "root")
    .ok (.standard, values)

/-- The `StructLoggingConfig` dataclass, fields in declaration order; the two
opaque class-valued fields (`wrapper_class`, `context_class`) are modelled as
opaque identifiers. -/
structure StructLoggingConfig where
  processors : Option (List Processor)
  standard_lib_logging_config : Option LoggingConfig
  wrapper_class : Option Nat
  context_class : Option Nat
  logger_factory : Option LoggerFactory
  cache_logger_on_first_use : Bool
  log_exceptions : LogExceptions
  traceback_line_limit : Int
  exception_logging_handler : Option ExcHandler
  pretty_print_tty : Bool
deriving DecidableEq, Repr

/-- The dataclass field defaults of `StructLoggingConfig`. -/
def StructLoggingConfig.defaults : StructLoggingConfig :=
  { processors := none
    standard_lib_logging_config := none
    wrapper_class := none
    context_class := none
    logger_factory := none
    cache_logger_on_first_use := true
    log_exceptions := .debug
    traceback_line_limit := 20
    exception_logging_handler := none
    pretty_print_tty := true }

/-- The `as_json` argument computed in `StructLoggingConfig.__post_init__`:
`not sys.stderr.isatty() and self.pretty_print_tty`. -/
def StructLoggingConfig.as_json (env : Env) (c : StructLoggingConfig) : Bool :=
  !env.stderr_isatty && c.pretty_print_tty

/-- The default wrapped standard-lib config built by
`StructLoggingConfig.__post_init__` when structlog imports: a `LoggingConfig`
whose `"standard"` formatter is a `ProcessorFormatter` wrapping the bridge
pipeline; constructing it runs `LoggingConfig.__post_init__`. -/
def StructLoggingConfig.default_bridge_config (env : Env) (c : StructLoggingConfig) :
    LoggingConfig :=
  LoggingConfig.post_init env
    { LoggingConfig.defaults env with
      formatters :=
        [("standard",
          [ ("()", .procFormatterClass),
            ("processors",
             .procs (default_structlog_standard_lib_processors env.structlog_installed
                      (c.as_json env))) ])] }

/-- `StructLoggingConfig.__post_init__`: default the processors, the logger
factory and the exception logging handler, then resolve
`standard_lib_logging_config` — note the `except ImportError` branch replaces
the field with a bare default `LoggingConfig()` unconditionally. -/
def StructLoggingConfig.post_init (env : Env) (c : StructLoggingConfig) :
    StructLoggingConfig :=
  let processors :=
    match c.processors with
    | none => some (default_structlog_processors env.structlog_installed (c.as_json env))
    | some p => some p
  let logger_factory :=
    match c.logger_factory with
    | none => default_logger_factory env.structlog_installed (c.as_json env)
    | some f => some f
  let exception_logging_handler :=
    if c.log_exceptions ≠ LogExceptions.never ∧ c.exception_logging_handler = none then
      some (.defaultHandler true c.traceback_line_limit)
    else c.exception_logging_handler
  let standard_lib_logging_config :=
    if env.structlog_installed then
      match c.standard_lib_logging_config with
      | none => some (c.default_bridge_config env)
      | some x => some x
    else some (LoggingConfig.post_init env (LoggingConfig.defaults env))
  { c with
    processors := processors
    logger_factory := logger_factory
    exception_logging_handler := exception_logging_handler
    standard_lib_logging_config := standard_lib_logging_config }

/-- `StructlogEventFilter`: holds the keys to delete from each event dict. -/
structure StructlogEventFilter where
  filter_keys : List String
deriving DecidableEq, Repr

/-- `dict.pop(key, None)`: remove the entry with the given key, if any. -/
def popKey (d : List (String × α)) (key : String) : List (String × α) :=
  d.filter (fun kv => kv.1 ≠ key)

/-- `StructlogEventFilter.__call__`: pop every configured key from the event
dict (the wrapped-logger and method-name arguments are unused). -/
def StructlogEventFilter.call (f : StructlogEventFilter) (event_dict : List (String × α)) :
    List (String × α) :=
  f.filter_keys.foldl popKey event_dict

/-- A concrete 25-line traceback used for concrete evaluations. -/
def tb25 : List String := (List.range 25).map (fun i => "line " ++ toString i ++ "\n")

/-- A concrete scope used for concrete evaluations. -/
def scope0 : Scope := { type := "http", path := "/books" }

/-- An environment with structlog installed and picologging absent, stderr not
a tty, Python < 3.12. -/
def envStd : Env :=
  { pico_installed := false, structlog_installed := true, py312 := false, stderr_isatty := false }

/-- An environment with neither optional backend installed. -/
def envNoStruct : Env :=
  { pico_installed := false, structlog_installed := false, py312 := false, stderr_isatty := false }

/-- An environment with picologging installed and structlog absent. -/
def envPico : Env :=
  { pico_installed := true, structlog_installed := false, py312 := false, stderr_isatty := false }

/-- A standard config a user explicitly customised (traceback line limit 5),
as construction leaves it. -/
def lc_supplied : LoggingConfig :=
  LoggingConfig.post_init envNoStruct
    { LoggingConfig.defaults envNoStruct with traceback_line_limit := 5 }

/-- A structlog config constructed with an explicitly supplied wrapped
standard-lib config. -/
def scfg_supplied : StructLoggingConfig :=
  { StructLoggingConfig.defaults with standard_lib_logging_config := some lc_supplied }

/-- A standard config constructed with `log_exceptions="never"` together with
an explicitly supplied exception logging handler. -/
def cfg_never_with_handler : LoggingConfig :=
  { LoggingConfig.defaults envStd with
    log_exceptions := .never, exception_logging_handler := some (.custom 0) }

/-- A handlers map whose only picologging mention sits inside a format string,
not in any handler class. -/
def handlers_fmt_mention : SettingsMap :=
  [("console",
    [ ("class", .s "logging.StreamHandler"), ("level", .s "DEBUG"),
      ("format", .s "picologging-style output") ])]

/-- A standard config whose handlers mention picologging only inside a format
string value. -/
def cfg_fmt_mention : LoggingConfig :=
  { LoggingConfig.defaults envNoStruct with handlers := handlers_fmt_mention }

/-- The mapping `configure` passes to `dictConfig` for a default-constructed
standard config (structlog present, picologging absent). -/
def c5_vals : List (String × CValue) :=
  ((LoggingConfig.configure envStd
      (LoggingConfig.post_init envStd (LoggingConfig.defaults envStd))).toOption.getD
    (.standard, [])).2

/-- A constructed standard config carrying the spec scenario root entry
`{"level": "WARNING", "handlers": ["queue_listener"]}`. -/
def cfg6 : LoggingConfig :=
  LoggingConfig.post_init envStd
    { LoggingConfig.defaults envStd with
      root := [("level", .s "WARNING"), ("handlers", .l ["queue_listener"])] }

/-- The mapping compiled from `cfg6`. -/
def c6_vals : List (String × CValue) :=
  ((LoggingConfig.configure envStd cfg6).toOption.getD (.standard, [])).2

/-- A constructed standard config with `configure_root_logger = False`. -/
def cfg6b : LoggingConfig :=
  LoggingConfig.post_init envStd
    { LoggingConfig.defaults envStd with configure_root_logger := false }

/-- The mapping compiled from `cfg6b`. -/
def c6b_vals : List (String × CValue) :=
  ((LoggingConfig.configure envStd cfg6b).toOption.getD (.standard, [])).2

/-- The mapping compiled from `cfg_fmt_mention` with picologging installed. -/
def c10_vals : List (String × CValue) :=
  ((LoggingConfig.configure envPico cfg_fmt_mention).toOption.getD (.standard, [])).2

set_option maxRecDepth 8192

/-- C1.  The claim says the built handler emits at most `N` tail lines, with
zero tail lines for `N = 0` (checked at `M = 25`).  The code slices the popped
traceback with Python `tb[-traceback_line_limit:]`, and `tb[-0:]` is `tb[0:]`:
at limit 0 both handler variants emit all 24 remaining lines, contradicting
the factory docstring ("Maximal number of lines to log from the traceback").
The limits 1 and 20 conform. -/
theorem C1_limit_zero_emits_whole_tail :
    emitted_traceback_lines 0 tb25 = .ok (tb25.drop 1)
    ∧ (tb25.drop 1).length = 24
    ∧ default_exception_logging_handler true 0 scope0 tb25 =
        .ok (.structEvent "Uncaught Exception" "http" "/books" (String.join (tb25.drop 1)))
    ∧ default_exception_logging_handler false 0 scope0 tb25 =
        .ok (.message "exception raised on %s connection to route %s\n\n%s"
              ["http", "/books", "line 0\n" ++ String.join (tb25.drop 1)])
    ∧ (emitted_traceback_lines 1 tb25).map List.length = .ok 1
    ∧ (emitted_traceback_lines 20 tb25).map List.length = .ok 20 := by
  refine ⟨by decide, by decide, by decide, by decide, by decide, by decide⟩

/-- C2 counterexample.  The claim says the built handler returns normally for
every traceback list, including an empty one; but `tb.pop(0)` raises
`IndexError` on an empty list, for both variants. -/
theorem C2_counterexample_empty_traceback :
    default_exception_logging_handler true 20 scope0 [] = .error .indexError
    ∧ default_exception_logging_handler false 20 scope0 [] = .error .indexError :=
  ⟨rfl, rfl⟩

/-- C2, amended.  For every non-empty traceback list (and any logger variant,
line limit and scope) the built exception logging handler returns normally. -/
theorem C2_handler_returns_on_nonempty_traceback :
    ∀ (is_struct_logger : Bool) (traceback_line_limit : Int) (scope : Scope)
      (first : String) (rest : List String),
      ∃ r, default_exception_logging_handler is_struct_logger traceback_line_limit scope
            (first :: rest) = .ok r := by
  intro b limit scope first rest
  cases b
  · exact ⟨_, rfl⟩
  · exact ⟨_, rfl⟩

/-- C7.  With structlog importable, both pipeline builders end in the JSON
renderer when `as_json` and in the coloured console renderer otherwise (ending
in a renderer in particular makes the pipelines non-empty); when structlog is
not importable both builders return the empty list for either `as_json`. -/
theorem C7_pipeline_last_renderer :
    (default_structlog_processors true true).getLast? = some (.jsonRenderer .default_json)
    ∧ (default_structlog_standard_lib_processors true true).getLast? =
        some (.jsonRenderer .stdlib_json)
    ∧ (default_structlog_processors true false).getLast? =
        some (.consoleRenderer true 1 false 80)
    ∧ (default_structlog_standard_lib_processors true false).getLast? =
        some (.consoleRenderer true 1 false 80)
    ∧ ∀ as_json : Bool,
        default_structlog_processors false as_json = []
        ∧ default_structlog_standard_lib_processors false as_json = [] := by
  exact ⟨rfl, rfl, rfl, rfl, fun _ => ⟨rfl, rfl⟩⟩

/-- C9.  The placeholder accessor installed before `configure()` raises
`ImproperlyConfiguredException` for every requested name, including `None`;
its `Empty` payload type shows it can never return a logger. -/
theorem C9_placeholder_always_raises :
    ∀ name : Option String,
      get_logger_placeholder name = .error (.improperlyConfigured
        "cannot call .get_logger without passing logging_config to the Litestar constructor first") :=
  fun _ => rfl

/-- C3 counterexample.  The claim says an explicitly supplied non-null wrapped
backend config is left unchanged also when structlog is unavailable; but the
`except ImportError` branch of `StructLoggingConfig.__post_init__` overwrites
the field with a bare default `LoggingConfig()` unconditionally: the supplied
config (traceback line limit 5) is replaced by the default (limit 20). -/
theorem C3_counterexample_supplied_config_overwritten :
    (StructLoggingConfig.post_init envNoStruct scfg_supplied).standard_lib_logging_config =
      some (LoggingConfig.post_init envNoStruct (LoggingConfig.defaults envNoStruct))
    ∧ decide ((StructLoggingConfig.post_init envNoStruct scfg_supplied).standard_lib_logging_config
        = some lc_supplied) = false
    ∧ lc_supplied.traceback_line_limit = 5
    ∧ (LoggingConfig.post_init envNoStruct (LoggingConfig.defaults envNoStruct)).traceback_line_limit
        = 20 := by
  refine ⟨by decide, by decide, by decide, by decide⟩

/-- C3, amended.  When structlog is importable, a default wrapped backend
config is built only when the supplied one is null and a supplied non-null one
is left unchanged; when structlog is not importable, the field is always
replaced by a bare default standard config, discarding any supplied value. -/
theorem C3_wrapped_config_defaulting :
    ∀ (env : Env) (c : StructLoggingConfig),
      (env.structlog_installed = true →
        (c.standard_lib_logging_config = none →
          (StructLoggingConfig.post_init env c).standard_lib_logging_config =
            some (c.default_bridge_config env))
        ∧ ∀ x, c.standard_lib_logging_config = some x →
            (StructLoggingConfig.post_init env c).standard_lib_logging_config = some x)
      ∧ (env.structlog_installed = false →
          (StructLoggingConfig.post_init env c).standard_lib_logging_config =
            some (LoggingConfig.post_init env (LoggingConfig.defaults env))) := by
  intro env c
  constructor
  · intro hs
    constructor
    · intro hn
      simp [StructLoggingConfig.post_init, hs, hn]
    · intro x hx
      simp [StructLoggingConfig.post_init, hs, hx]
  · intro hs
    simp [StructLoggingConfig.post_init, hs]

/-- C3 witness: the amended theorem applied at concrete inputs — with
structlog importable, a null field is defaulted to the bridge config and a
supplied field is kept. -/
theorem C3_wrapped_config_defaulting_witness :
    (StructLoggingConfig.post_init envStd StructLoggingConfig.defaults).standard_lib_logging_config
      = some (StructLoggingConfig.default_bridge_config envStd StructLoggingConfig.defaults)
    ∧ (StructLoggingConfig.post_init envStd scfg_supplied).standard_lib_logging_config
        = some lc_supplied
    ∧ (StructLoggingConfig.post_init envNoStruct scfg_supplied).standard_lib_logging_config
        = some (LoggingConfig.post_init envNoStruct (LoggingConfig.defaults envNoStruct)) :=
  ⟨((C3_wrapped_config_defaulting envStd StructLoggingConfig.defaults).1 rfl).1 rfl,
   ((C3_wrapped_config_defaulting envStd scfg_supplied).1 rfl).2 lc_supplied rfl,
   (C3_wrapped_config_defaulting envNoStruct scfg_supplied).2 rfl⟩

/-- C4 counterexample.  The claim says every model constructed with
`log_exceptions="never"` has a null exception handler after defaulting; but a
handler supplied together with the `"never"` policy is kept. -/
theorem C4_counterexample_supplied_handler_kept :
    (LoggingConfig.post_init envStd cfg_never_with_handler).exception_logging_handler =
      some (.custom 0) := by
  decide

/-- C4, amended.  For both model types, when `log_exceptions="never"` and no
handler was supplied at construction, the exception handler is still null
after defaulting. -/
theorem C4_never_policy_keeps_handler_absent :
    ∀ (env : Env) (c : LoggingConfig) (sc : StructLoggingConfig),
      c.log_exceptions = .never → c.exception_logging_handler = none →
      sc.log_exceptions = .never → sc.exception_logging_handler = none →
      (LoggingConfig.post_init env c).exception_logging_handler = none
      ∧ (StructLoggingConfig.post_init env sc).exception_logging_handler = none := by
  intro env c sc h1 h2 h3 h4
  constructor
  · simp [LoggingConfig.post_init, h1, h2]
  · simp [StructLoggingConfig.post_init, h3, h4]

/-- C4 witness: the amended theorem applied to the default models with the
policy set to `"never"`. -/
theorem C4_never_policy_keeps_handler_absent_witness :
    (LoggingConfig.post_init envStd
        { LoggingConfig.defaults envStd with log_exceptions := .never }).exception_logging_handler
      = none
    ∧ (StructLoggingConfig.post_init envStd
        { StructLoggingConfig.defaults with log_exceptions := .never }).exception_logging_handler
      = none :=
  C4_never_policy_keeps_handler_absent envStd
    { LoggingConfig.defaults envStd with log_exceptions := .never }
    { StructLoggingConfig.defaults with log_exceptions := .never }
    rfl rfl rfl rfl

/-- C8.  The event filter configured with `["color_message"]` removes exactly
the listed keys and leaves every other pair unchanged (shown on the concrete
spec example and via the membership characterisation), and applying it twice
equals applying it once. -/
theorem C8_event_filter_removes_exactly :
    StructlogEventFilter.call ⟨["color_message"]⟩ [("color_message", "x"), ("event", "y")]
      = [("event", "y")]
    ∧ ∀ (α : Type) (d : List (String × α)),
        (∀ (k : String) (v : α),
          (k, v) ∈ StructlogEventFilter.call ⟨["color_message"]⟩ d ↔
            ((k, v) ∈ d ∧ k ≠ "color_message"))
        ∧ StructlogEventFilter.call ⟨["color_message"]⟩
            (StructlogEventFilter.call ⟨["color_message"]⟩ d)
          = StructlogEventFilter.call ⟨["color_message"]⟩ d := by
  refine ⟨by decide, ?_⟩
  intro α d
  constructor
  · intro k v
    simp [StructlogEventFilter.call, popKey, List.mem_filter]
  · simp [StructlogEventFilter.call, popKey, List.filter_filter]

/-- Lookup finds an entry appended at the end of an association list. -/
theorem lookupS_append_single (k : String) (v : α) :
    ∀ l : List (String × α), (lookupS k (l ++ [(k, v)])).isSome = true := by
  intro l
  induction l with
  | nil => simp [lookupS]
  | cons a l ih =>
    rcases a with ⟨k1, v1⟩
    by_cases h : k = k1 <;> simp [lookupS, h, ih]

/-- Stripping preserves the value of a non-excluded key bound to `some`. -/
theorem lookupS_stripFields_of_mem (excl : List String) (k : String) (v : CValue)
    (hex : k ∉ excl) :
    ∀ d : List (String × Option CValue), lookupS k d = some (some v) →
      lookupS k (stripFields excl d) = some v := by
  intro d
  induction d with
  | nil => intro h; exact Option.noConfusion h
  | cons a d ih =>
    rcases a with ⟨k1, ov⟩
    intro h
    by_cases hk : k = k1
    · subst hk
      simp only [lookupS, if_pos rfl] at h
      injection h with h2
      subst h2
      simp [stripFields, List.filterMap, hex, lookupS]
    · simp only [lookupS, if_neg hk] at h
      rcases ov with _ | w
      · simpa [stripFields, List.filterMap] using ih h
      · by_cases he : k1 ∈ excl
        · simpa [stripFields, List.filterMap, he] using ih h
        · simpa [stripFields, List.filterMap, he, lookupS, hk] using ih h

/-- Removing the `root` entry does not change lookups of other keys. -/
theorem lookupS_filter_ne (bad k : String) (h : k ≠ bad) :
    ∀ d : List (String × CValue),
      lookupS k (d.filter (fun kv => kv.1 ≠ bad)) = lookupS k d := by
  intro d
  induction d with
  | nil => rfl
  | cons a d ih =>
    rcases a with ⟨k1, v1⟩
    by_cases h1 : k1 = bad
    · subst h1
      simp only [List.filter_cons]
      rw [if_neg (by simp)]
      rw [ih]
      simp [lookupS, h]
    · simp only [List.filter_cons]
      rw [if_pos (by simp [h1])]
      simp only [ne_eq, decide_not] at ih ⊢
      by_cases hk : k = k1 <;> simp [lookupS, hk, ih]

/-- Stripping drops every excluded key. -/
theorem lookupS_stripFields_excluded (excl : List String) (k : String)
    (hex : k ∈ excl) :
    ∀ d : List (String × Option CValue), lookupS k (stripFields excl d) = none := by
  intro d
  induction d with
  | nil => rfl
  | cons a d ih =>
    rcases a with ⟨k1, ov⟩
    rcases ov with _ | w
    · simpa [stripFields, List.filterMap] using ih
    · by_cases he : k1 ∈ excl
      · simpa [stripFields, List.filterMap, he] using ih
      · have hk : k ≠ k1 := fun hkk => he (hkk ▸ hex)
        simpa [stripFields, List.filterMap, he, lookupS, hk] using ih

/-- Removing the `root` entry removes it from lookups. -/
theorem lookupS_filter_bad (bad : String) :
    ∀ d : List (String × CValue),
      lookupS bad (d.filter (fun kv => kv.1 ≠ bad)) = none := by
  intro d
  induction d with
  | nil => rfl
  | cons a d ih =>
    rcases a with ⟨k1, v1⟩
    by_cases h1 : k1 = bad
    · subst h1
      simp only [List.filter_cons]
      rw [if_neg (by simp)]
      exact ih
    · simp only [List.filter_cons]
      rw [if_pos (by simp [h1])]
      have hbk : bad ≠ k1 := fun hb => h1 hb.symm
      simp only [ne_eq, decide_not] at ih ⊢
      simp [lookupS, hbk, ih]

/-- Lookup in a stripped list misses keys absent from the original list. -/
theorem lookupS_stripFields_not_mem (excl : List String) (k : String) :
    ∀ d : List (String × Option CValue), (k ∈ d.map Prod.fst → False) →
      lookupS k (stripFields excl d) = none := by
  intro d
  induction d with
  | nil => intro _; rfl
  | cons a d ih =>
    rcases a with ⟨k1, ov⟩
    intro hmem
    have hk : k ≠ k1 := fun hkk => hmem (by simp [hkk])
    have hrec := ih (fun hm => hmem (by simp [List.mem_cons]; right; simpa using hm))
    rcases ov with _ | w
    · simpa [stripFields, List.filterMap] using hrec
    · by_cases he : k1 ∈ excl
      · simpa [stripFields, List.filterMap, he] using hrec
      · simpa [stripFields, List.filterMap, he, lookupS, hk] using hrec

/-- Stripping drops every key bound to `None` (assuming unique keys). -/
theorem lookupS_stripFields_of_none (excl : List String) (k : String) :
    ∀ d : List (String × Option CValue), lookupS k d = some none →
      (d.map Prod.fst).Nodup → lookupS k (stripFields excl d) = none := by
  intro d
  induction d with
  | nil => intro h _; exact Option.noConfusion h
  | cons a d ih =>
    rcases a with ⟨k1, ov⟩
    intro h hnd
    simp only [List.map_cons, List.nodup_cons] at hnd
    by_cases hk : k = k1
    · subst hk
      simp only [lookupS, if_pos rfl] at h
      injection h with h2
      subst h2
      simp only [stripFields, List.filterMap]
      exact lookupS_stripFields_not_mem excl k d (fun hm => hnd.1 hm)
    · simp only [lookupS, if_neg hk] at h
      have hrec := ih h hnd.2
      rcases ov with _ | w
      · simpa [stripFields, List.filterMap] using hrec
      · by_cases he : k1 ∈ excl
        · simpa [stripFields, List.filterMap, he] using hrec
        · simpa [stripFields, List.filterMap, he, lookupS, hk] using hrec

/-- The field names of the dataclass dict, in declaration order. -/
theorem asdict_keys (c : LoggingConfig) :
    c.asdict.map Prod.fst =
      ["version", "incremental", "disable_existing_loggers", "filters", "propagate",
       "formatters", "handlers", "loggers", "root", "configure_root_logger",
       "log_exceptions", "traceback_line_limit", "exception_logging_handler"] := rfl

/-- The backend `configure` routes to is decided by the picologging substring
test on the encoded handlers, only. -/
theorem configure_backend_eq :
    ∀ (env : Env) (c : LoggingConfig) (b : Backend) (values : List (String × CValue)),
      LoggingConfig.configure env c = .ok (b, values) →
      b = (if c.uses_picologging then Backend.highPerformance else Backend.standard) := by
  intro env c b values h
  rcases hpico : c.uses_picologging with _ | _
  · unfold LoggingConfig.configure at h
    rw [hpico] at h
    simp only [Bool.false_eq_true, if_false] at h
    simp only [Except.ok.injEq, Prod.mk.injEq] at h
    simp [hpico, h.1.symm]
  · unfold LoggingConfig.configure at h
    rw [hpico] at h
    simp only [if_true] at h
    rcases hpi : env.pico_installed with _ | _
    · rw [hpi] at h
      simp at h
    · rw [hpi] at h
      simp only [Bool.false_eq_true, if_true, if_false] at h
      simp only [Except.ok.injEq, Prod.mk.injEq] at h
      simp [hpico, h.1.symm]

/-- The mapping `configure` passes to the backend, as a function of the model:
the projected dataclass dict, with `root` additionally removed when
`configure_root_logger` is false. -/
theorem configure_values_eq :
    ∀ (env : Env) (c : LoggingConfig) (b : Backend) (values : List (String × CValue)),
      LoggingConfig.configure env c = .ok (b, values) →
      values =
        (let vs := stripFields
            (if c.uses_picologging then ["incremental", "configure_root_logger"]
             else ["configure_root_logger"]) c.asdict
         if c.configure_root_logger then vs else vs.filter (fun kv => kv.1 ≠ "root")) := by
  intro env c b values h
  rcases hpico : c.uses_picologging with _ | _
  · unfold LoggingConfig.configure at h
    rw [hpico] at h
    simp only [Bool.false_eq_true, if_false] at h
    simp only [Except.ok.injEq, Prod.mk.injEq] at h
    simp [hpico, h.2.symm]
  · unfold LoggingConfig.configure at h
    rw [hpico] at h
    simp only [if_true] at h
    rcases hpi : env.pico_installed with _ | _
    · rw [hpi] at h
      simp at h
    · rw [hpi] at h
      simp only [Bool.false_eq_true, if_true, if_false] at h
      simp only [Except.ok.injEq, Prod.mk.injEq] at h
      simp [hpico, h.2.symm]

/-- C5.  After construction a standard config always has a `queue_listener`
handler entry and a `litestar` logger entry; its exception handler is present
whenever the policy is not `"never"`; and the compiled mapping carries the
`handlers` and `loggers` dicts (hence both entries) through unchanged. -/
theorem C5_construction_invariants :
    ∀ (env : Env) (c : LoggingConfig),
      (lookupS "queue_listener" (LoggingConfig.post_init env c).handlers).isSome = true
      ∧ (lookupS "litestar" (LoggingConfig.post_init env c).loggers).isSome = true
      ∧ (c.log_exceptions ≠ LogExceptions.never →
          ((LoggingConfig.post_init env c).exception_logging_handler).isSome = true)
      ∧ ∀ (b : Backend) (values : List (String × CValue)),
          LoggingConfig.configure env (LoggingConfig.post_init env c) = .ok (b, values) →
          lookupS "handlers" values = some (.smap (LoggingConfig.post_init env c).handlers)
          ∧ lookupS "loggers" values = some (.smap (LoggingConfig.post_init env c).loggers) := by
  intro env c
  refine ⟨?_, ?_, ?_, ?_⟩
  · by_cases hq : (lookupS "queue_listener" c.handlers).isSome = true
    · simp [LoggingConfig.post_init, hq]
    · simp [LoggingConfig.post_init, hq]
      exact lookupS_append_single _ _ _
  · by_cases hq : (lookupS "litestar" c.loggers).isSome = true
    · simp [LoggingConfig.post_init, hq]
    · simp [LoggingConfig.post_init, hq]
      exact lookupS_append_single _ _ _
  · intro hne
    rcases heh : c.exception_logging_handler with _ | x
    · simp [LoggingConfig.post_init, hne, heh]
    · simp [LoggingConfig.post_init, heh]
  · intro b values h
    have hv := configure_values_eq env _ b values h
    subst hv
    rcases hcrl : (LoggingConfig.post_init env c).configure_root_logger with _ | _ <;>
      rcases hup : (LoggingConfig.post_init env c).uses_picologging with _ | _ <;>
      simp only [hcrl, hup, Bool.false_eq_true, if_false, if_true] <;>
      constructor
    · rw [lookupS_filter_ne "root" "handlers" (by decide)]
      exact lookupS_stripFields_of_mem _ _ _ (by decide) _ rfl
    · rw [lookupS_filter_ne "root" "loggers" (by decide)]
      exact lookupS_stripFields_of_mem _ _ _ (by decide) _ rfl
    · rw [lookupS_filter_ne "root" "handlers" (by decide)]
      exact lookupS_stripFields_of_mem _ _ _ (by decide) _ rfl
    · rw [lookupS_filter_ne "root" "loggers" (by decide)]
      exact lookupS_stripFields_of_mem _ _ _ (by decide) _ rfl
    · exact lookupS_stripFields_of_mem _ _ _ (by decide) _ rfl
    · exact lookupS_stripFields_of_mem _ _ _ (by decide) _ rfl
    · exact lookupS_stripFields_of_mem _ _ _ (by decide) _ rfl
    · exact lookupS_stripFields_of_mem _ _ _ (by decide) _ rfl

/-- C5 witness: the invariants at the default-constructed standard config in
the structlog environment, with the compiled mapping evaluated. -/
theorem C5_construction_invariants_witness :
    (lookupS "queue_listener"
        (LoggingConfig.post_init envStd (LoggingConfig.defaults envStd)).handlers).isSome = true
    ∧ ((LoggingConfig.post_init envStd
        (LoggingConfig.defaults envStd)).exception_logging_handler).isSome = true
    ∧ lookupS "handlers" c5_vals =
        some (.smap (LoggingConfig.post_init envStd (LoggingConfig.defaults envStd)).handlers)
    ∧ lookupS "loggers" c5_vals =
        some (.smap (LoggingConfig.post_init envStd (LoggingConfig.defaults envStd)).loggers) :=
  ⟨(C5_construction_invariants envStd (LoggingConfig.defaults envStd)).1,
   (C5_construction_invariants envStd (LoggingConfig.defaults envStd)).2.2.1 (by decide),
   ((C5_construction_invariants envStd (LoggingConfig.defaults envStd)).2.2.2 .standard
      c5_vals (by decide)).1,
   ((C5_construction_invariants envStd (LoggingConfig.defaults envStd)).2.2.2 .standard
      c5_vals (by decide)).2⟩

/-- C6.  The compiled mapping never contains the `configure_root_logger` key;
nullable fields (`filters`, `exception_logging_handler`) appear iff non-null,
unchanged; the `root` entry appears unchanged iff `configure_root_logger` is
true; and `incremental` is dropped exactly for the picologging backend. -/
theorem C6_compiled_mapping_shape :
    ∀ (env : Env) (c : LoggingConfig) (b : Backend) (values : List (String × CValue)),
      LoggingConfig.configure env c = .ok (b, values) →
      lookupS "configure_root_logger" values = none
      ∧ lookupS "root" values =
          (if c.configure_root_logger then some (.settings c.root) else none)
      ∧ lookupS "incremental" values =
          (if b = Backend.highPerformance then none else some (.bool c.incremental))
      ∧ lookupS "filters" values = c.filters.map CValue.smap
      ∧ lookupS "exception_logging_handler" values =
          c.exception_logging_handler.map CValue.handler := by
  intro env c b values h
  have hb := configure_backend_eq env c b values h
  have hv := configure_values_eq env c b values h
  subst hv
  have hnd : (c.asdict.map Prod.fst).Nodup := by rw [asdict_keys]; decide
  have hfil : ∀ excl : List String, ("filters" : String) ∉ excl →
      lookupS "filters" (stripFields excl c.asdict) = c.filters.map CValue.smap := by
    intro excl hex
    rcases hf : c.filters with _ | f
    · have ha : lookupS "filters" c.asdict = some none := by
        have h0 : lookupS "filters" c.asdict = some (c.filters.map CValue.smap) := rfl
        rw [h0, hf]; rfl
      simp [lookupS_stripFields_of_none excl "filters" c.asdict ha hnd]
    · have ha : lookupS "filters" c.asdict = some (some (.smap f)) := by
        have h0 : lookupS "filters" c.asdict = some (c.filters.map CValue.smap) := rfl
        rw [h0, hf]; rfl
      simp [lookupS_stripFields_of_mem excl "filters" (.smap f) hex c.asdict ha]
  have heh : ∀ excl : List String, ("exception_logging_handler" : String) ∉ excl →
      lookupS "exception_logging_handler" (stripFields excl c.asdict) =
        c.exception_logging_handler.map CValue.handler := by
    intro excl hex
    rcases hf : c.exception_logging_handler with _ | f
    · have ha : lookupS "exception_logging_handler" c.asdict = some none := by
        have h0 : lookupS "exception_logging_handler" c.asdict =
            some (c.exception_logging_handler.map CValue.handler) := rfl
        rw [h0, hf]; rfl
      simp [lookupS_stripFields_of_none excl "exception_logging_handler" c.asdict ha hnd]
    · have ha : lookupS "exception_logging_handler" c.asdict = some (some (.handler f)) := by
        have h0 : lookupS "exception_logging_handler" c.asdict =
            some (c.exception_logging_handler.map CValue.handler) := rfl
        rw [h0, hf]; rfl
      simp [lookupS_stripFields_of_mem excl "exception_logging_handler" (.handler f) hex
              c.asdict ha]
  rcases hup : c.uses_picologging with _ | _ <;> rw [hup] at hb <;>
    simp only [Bool.false_eq_true, if_false, if_true] at hb <;> subst hb <;>
    rcases hcrl : c.configure_root_logger with _ | _ <;>
    simp only [hup, hcrl, Bool.false_eq_true, if_false, if_true]
  · refine ⟨?_, ?_, ?_, ?_, ?_⟩
    · rw [lookupS_filter_ne "root" "configure_root_logger" (by decide)]
      exact lookupS_stripFields_excluded _ _ (by decide) _
    · exact lookupS_filter_bad "root" _
    · rw [if_neg (by decide : ¬ Backend.standard = Backend.highPerformance)]
      rw [lookupS_filter_ne "root" "incremental" (by decide)]
      exact lookupS_stripFields_of_mem _ _ _ (by decide) _ rfl
    · rw [lookupS_filter_ne "root" "filters" (by decide)]
      exact hfil _ (by decide)
    · rw [lookupS_filter_ne "root" "exception_logging_handler" (by decide)]
      exact heh _ (by decide)
  · refine ⟨?_, ?_, ?_, ?_, ?_⟩
    · exact lookupS_stripFields_excluded _ _ (by decide) _
    · exact lookupS_stripFields_of_mem _ _ _ (by decide) _ rfl
    · rw [if_neg (by decide : ¬ Backend.standard = Backend.highPerformance)]
      exact lookupS_stripFields_of_mem _ _ _ (by decide) _ rfl
    · exact hfil _ (by decide)
    · exact heh _ (by decide)
  · refine ⟨?_, ?_, ?_, ?_, ?_⟩
    · rw [lookupS_filter_ne "root" "configure_root_logger" (by decide)]
      exact lookupS_stripFields_excluded _ _ (by decide) _
    · exact lookupS_filter_bad "root" _
    · rw [lookupS_filter_ne "root" "incremental" (by decide)]
      exact lookupS_stripFields_excluded _ _ (by decide) _
    · rw [lookupS_filter_ne "root" "filters" (by decide)]
      exact hfil _ (by decide)
    · rw [lookupS_filter_ne "root" "exception_logging_handler" (by decide)]
      exact heh _ (by decide)
  · refine ⟨?_, ?_, ?_, ?_, ?_⟩
    · exact lookupS_stripFields_excluded _ _ (by decide) _
    · exact lookupS_stripFields_of_mem _ _ _ (by decide) _ rfl
    · exact lookupS_stripFields_excluded _ _ (by decide) _
    · exact hfil _ (by decide)
    · exact heh _ (by decide)

/-- C6 witness: the compiled-mapping shape at the spec scenario configs — one
with `configure_root_logger = true` and the custom `root` entry, one with
`configure_root_logger = false`. -/
theorem C6_compiled_mapping_shape_witness :
    (lookupS "configure_root_logger" c6_vals = none
     ∧ lookupS "root" c6_vals =
         (if cfg6.configure_root_logger then some (.settings cfg6.root) else none)
     ∧ lookupS "incremental" c6_vals =
         (if Backend.standard = Backend.highPerformance then none
          else some (.bool cfg6.incremental))
     ∧ lookupS "filters" c6_vals = cfg6.filters.map CValue.smap
     ∧ lookupS "exception_logging_handler" c6_vals =
         cfg6.exception_logging_handler.map CValue.handler)
    ∧ lookupS "root" c6b_vals =
        (if cfg6b.configure_root_logger then some (.settings cfg6b.root) else none) :=
  ⟨C6_compiled_mapping_shape envStd cfg6 .standard c6_vals (by decide),
   (C6_compiled_mapping_shape envStd cfg6b .standard c6b_vals (by decide)).2.1⟩

/-- C10.  The dict-based configure step selects the picologging backend iff
the substring `"picologging"` occurs in the JSON encoding of the handlers
mapping — also when the only occurrence is a format-string value — and the
selection is independent of whether picologging is installed (installation
only decides between proceeding and `MissingDependencyException`). -/
theorem C10_picologging_substring_selection :
    (∀ (env : Env) (c : LoggingConfig) (b : Backend) (values : List (String × CValue)),
        LoggingConfig.configure env c = .ok (b, values) →
          (b = Backend.highPerformance ↔
            strHasSub "picologging" (encode_json c.handlers) = true))
    ∧ (∀ (env env2 : Env) (c : LoggingConfig) (b b2 : Backend)
          (values values2 : List (String × CValue)),
        LoggingConfig.configure env c = .ok (b, values) →
        LoggingConfig.configure env2 c = .ok (b2, values2) → b = b2)
    ∧ LoggingConfig.uses_picologging cfg_fmt_mention = true
    ∧ (LoggingConfig.configure envPico cfg_fmt_mention).map Prod.fst =
        .ok Backend.highPerformance
    ∧ LoggingConfig.configure envNoStruct cfg_fmt_mention =
        .error (.missingDependency "picologging")
    ∧ LoggingConfig.uses_picologging (LoggingConfig.post_init envStd
        (LoggingConfig.defaults envStd)) = false
    ∧ (LoggingConfig.configure envStd (LoggingConfig.post_init envStd
        (LoggingConfig.defaults envStd))).map Prod.fst = .ok Backend.standard := by
  refine ⟨?_, ?_, by decide, by decide, by decide, by decide, by decide⟩
  · intro env c b values h
    have hb := configure_backend_eq env c b values h
    rcases hup : c.uses_picologging with _ | _ <;> rw [hup] at hb <;>
      simp only [Bool.false_eq_true, if_false, if_true] at hb <;> subst hb
    · constructor
      · intro hb2
        exact absurd hb2 (by decide)
      · intro hs
        have hc : c.uses_picologging = true := hs
        rw [hc] at hup
        exact Bool.noConfusion hup
    · constructor
      · intro _
        exact hup
      · intro _
        rfl
  · intro env env2 c b b2 values values2 h1 h2
    have hb1 := configure_backend_eq env c b values h1
    have hb2 := configure_backend_eq env2 c b2 values2 h2
    rw [hb1, hb2]

/-- C10 witness: the selection and independence statements applied at the
format-string-mention config with picologging installed. -/
theorem C10_picologging_substring_selection_witness :
    (Backend.highPerformance = Backend.highPerformance ↔
      strHasSub "picologging" (encode_json cfg_fmt_mention.handlers) = true)
    ∧ Backend.highPerformance = Backend.highPerformance :=
  ⟨C10_picologging_substring_selection.1 envPico cfg_fmt_mention .highPerformance c10_vals
      (by decide),
   C10_picologging_substring_selection.2.1 envPico envPico cfg_fmt_mention .highPerformance
      .highPerformance c10_vals c10_vals (by decide) (by decide)⟩

end LitestarLogging
